import Mathlib

/-!
Verification of the savegame migration pass of this repository
(src/saveload/afterload.cpp and src/saveload/animated_tile_sl.cpp),
as a shallow embedding in Lean.

Each definition carries a reference to the source construct it embeds.
Accessors of the map array and of the entity pools (GetTileType, IsCoast,
GetWaterClass, ...) live in headers outside the supplied sources; a tile
is therefore embedded as a record of the observations those accessors
would return, and the control flow of the migration code is translated
statement by statement.
-/

/-! ## Water classes (GuessWaterClass, afterload.cpp lines 73-142) -/

/-- The WaterClass values stored on a tile: WATER_CLASS_SEA,
WATER_CLASS_CANAL, WATER_CLASS_RIVER, WATER_CLASS_INVALID. -/
inductive WaterClass
  | sea
  | canal
  | river
  | invalid
deriving DecidableEq

/-- The tile type of a neighbour tile, restricted to the cases the
switch in GuessWaterClass distinguishes: MP_WATER, MP_RAILWAY, MP_TREES
and the default arm for every other type. -/
inductive NbTileType
  | water
  | railway
  | trees
  | other
deriving DecidableEq

/-- One 4-connected neighbour of the tile under classification, as the
observations GuessWaterClass makes of it: GetTileType, IsCoast, IsLock,
GetWaterClass, whether GetRailGroundType equals RAIL_GROUND_WATER, and
whether GB of m2 at 4,2 equals TREE_GROUND_SHORE. -/
structure Neighbour where
  tileType : NbTileType
  isCoast : Bool
  isLock : Bool
  waterClass : WaterClass
  railGroundWater : Bool
  treeGroundShore : Bool
deriving DecidableEq

/-- The three accumulator flags of the neighbour scan in GuessWaterClass:
has_water, has_canal, has_river. -/
structure WaterFlags where
  has_water : Bool
  has_canal : Bool
  has_river : Bool
deriving DecidableEq

/-- One iteration of the DiagDirection loop of GuessWaterClass
(afterload.cpp lines 99-128): the switch on the neighbour tile type.
A neighbour of type MP_WATER that is neither coast nor lock and carries
WATER_CLASS_INVALID hits the default arm, which throws SlCorrupt. -/
def scanNeighbour (f : WaterFlags) (n : Neighbour) : Except String WaterFlags :=
  match n.tileType with
  | .water =>
      if n.isCoast then .ok { f with has_water := true }
      else if !n.isLock then
        match n.waterClass with
        | .sea => .ok { f with has_water := true }
        | .canal => .ok { f with has_canal := true }
        | .river => .ok { f with has_river := true }
        | .invalid => .error "Invalid water class for tile"
      else .ok f
  | .railway => .ok { f with has_water := f.has_water || n.railGroundWater }
  | .trees => .ok { f with has_water := f.has_water || n.treeGroundShore }
  | .other => .ok f

/-- The full neighbour loop of GuessWaterClass: the four neighbours are
visited in DiagDirection order and the first SlCorrupt aborts the scan. -/
def scanNeighbours : WaterFlags → List Neighbour → Except String WaterFlags
  | f, [] => .ok f
  | f, n :: ns =>
      match scanNeighbour f n with
      | .error e => .error e
      | .ok f2 => scanNeighbours f2 ns

/-- The tile GuessWaterClass is called on: whether IsTileFlat holds, the
TileX and TileY coordinates, the MapMaxX and MapMaxY values, and the
list of the four 4-connected neighbours in DiagDirection order. -/
structure GuessTile where
  flat : Bool
  x : Nat
  y : Nat
  mapMaxX : Nat
  mapMaxY : Nat
  neighbours : List Neighbour
deriving DecidableEq

/-- The border test of GuessWaterClass (afterload.cpp line 89):
TileX equal 0, TileY equal 0, TileX equal MapMaxX minus 1 or TileY equal
MapMaxY minus 1. -/
def onMapBorder (t : GuessTile) : Bool :=
  t.x == 0 || t.y == 0 || t.x == t.mapMaxX - 1 || t.y == t.mapMaxY - 1

/-- GuessWaterClass (afterload.cpp lines 73-142), returning the assigned
WaterClass, or the message of the SlCorrupt exception it throws.
A non-flat tile is WATER_CLASS_INVALID when allowed and corrupt data
otherwise; a flat border tile is always WATER_CLASS_SEA; otherwise the
four neighbours are scanned and the final branch cascade decides. -/
def GuessWaterClass (t : GuessTile) (allow_invalid : Bool) : Except String WaterClass :=
  if !t.flat then
    if allow_invalid then .ok .invalid
    else .error "Invalid water class for dry tile"
  else if onMapBorder t then .ok .sea
  else
    match scanNeighbours { has_water := false, has_canal := false, has_river := false } t.neighbours with
    | .error e => .error e
    | .ok f =>
        if !f.has_water && !f.has_canal && !f.has_river && allow_invalid then .ok .invalid
        else if f.has_river && !f.has_canal then .ok .river
        else if f.has_canal || !f.has_water then .ok .canal
        else .ok .sea

/-- A neighbour that makes the scan throw SlCorrupt: type MP_WATER,
not coast, not lock, stored class WATER_CLASS_INVALID. -/
def isInvalidWaterNeighbour (n : Neighbour) : Bool :=
  match n.tileType, n.waterClass with
  | .water, .invalid => !n.isCoast && !n.isLock
  | _, _ => false

/-- A neighbour tile that is plain river water. -/
def riverNeighbour : Neighbour :=
  { tileType := .water, isCoast := false, isLock := false,
    waterClass := .river, railGroundWater := false, treeGroundShore := false }

/-- A neighbour tile that is plain canal water. -/
def canalNeighbour : Neighbour :=
  { tileType := .water, isCoast := false, isLock := false,
    waterClass := .canal, railGroundWater := false, treeGroundShore := false }

/-- A dry neighbour tile (hits the default arm of the scan switch). -/
def dryNeighbour : Neighbour :=
  { tileType := .other, isCoast := false, isLock := false,
    waterClass := .sea, railGroundWater := false, treeGroundShore := false }

/-- A flat interior tile with exactly one river and one canal neighbour. -/
def riverCanalTile : GuessTile :=
  { flat := true, x := 2, y := 2, mapMaxX := 8, mapMaxY := 8,
    neighbours := [riverNeighbour, canalNeighbour, dryNeighbour, dryNeighbour] }

/-- A flat interior tile with no water, canal or river neighbour. -/
def landlockedTile : GuessTile :=
  { flat := true, x := 3, y := 3, mapMaxX := 8, mapMaxY := 8,
    neighbours := [dryNeighbour, dryNeighbour, dryNeighbour, dryNeighbour] }

/-! ## Vehicles on bridges (AfterLoadGame, version 42 step, lines 700-733) -/

/-- DirToDiagDir: a Direction (3 bits, 8 values) shifted right by one
gives the DiagDirection of its axis. -/
def DirToDiagDir (dir : Nat) : Nat := dir / 2

/-- One vehicle as observed by the version 42 bridge normalization step:
IsGroundVehicle, IsBridgeTile of its tile, the value
GetTunnelBridgeDirection of its tile yields (kept as a raw number so
that corrupted bit patterns are representable), its direction field and
its position data. slopeZ stands for GetSlopePixelZ at the position. -/
structure BridgeVehicle where
  isGround : Bool
  onBridge : Bool
  bridgeDir : Nat
  direction : Nat
  xPos : Nat
  yPos : Nat
  zPos : Nat
  slopeZ : Nat
deriving DecidableEq

/-- What the version 42 step does to one vehicle: nothing (the loop
continues), or the vehicle is put into the wormhole state, possibly
after being moved to the northern bridge end. -/
inductive BridgeFixAction
  | skip
  | wormhole (movedToNorthernEnd : Bool)
deriving DecidableEq

/-- The body of the FOR_ALL_VEHICLES loop of the version 42 step
(afterload.cpp lines 709-732).  DIAGDIR_NE, DIAGDIR_SE, DIAGDIR_SW and
DIAGDIR_NW are 0, 1, 2, 3; TILE_SIZE is 16 and the masks with 0xF are
the remainder modulo 16.  The default arm of the switch throws
SlCorrupt, but it is guarded by the preceding comparison with
DirToDiagDir of the vehicle direction. -/
def fixBridgeVehicle (v : BridgeVehicle) : Except String BridgeFixAction :=
  if !v.isGround then .ok .skip
  else if v.onBridge then
    if v.bridgeDir ≠ DirToDiagDir v.direction then .ok .skip
    else if v.bridgeDir = 0 then
      (if v.xPos % 16 ≠ 0 then .ok .skip else .ok (.wormhole false))
    else if v.bridgeDir = 1 then
      (if v.yPos % 16 ≠ 15 then .ok .skip else .ok (.wormhole false))
    else if v.bridgeDir = 2 then
      (if v.xPos % 16 ≠ 15 then .ok .skip else .ok (.wormhole false))
    else if v.bridgeDir = 3 then
      (if v.yPos % 16 ≠ 0 then .ok .skip else .ok (.wormhole false))
    else .error "Invalid vehicle direction"
  else if v.slopeZ < v.zPos then .ok (.wormhole true)
  else .ok .skip

/-! ## NewGRF compatibility (AfterLoadGame, afterload.cpp lines 440-457) -/

/-- The classification IsGoodGRFConfigList returns. -/
inductive GRFListCompatibility
  | GLC_ALL_GOOD
  | GLC_COMPATIBLE
  | GLC_NOT_FOUND
deriving DecidableEq

/-- The user-visible outcome of the NewGRF check when the load
continues: which critical warning was shown, and whether _pause_mode was
set to PM_PAUSED_ERROR. -/
structure GrfCheckOutcome where
  compatibleWarning : Bool
  disabledWarning : Bool
  pausedError : Bool
deriving DecidableEq

/-- The NewGRF compatibility check of AfterLoadGame (lines 449-457):
in a networking context anything but GLC_ALL_GOOD throws SlException
with STR_NETWORK_ERROR_CLIENT_NEWGRF_MISMATCH; otherwise
GLC_COMPATIBLE shows a critical warning and GLC_NOT_FOUND additionally
pauses with PM_PAUSED_ERROR. -/
def afterLoadGrfCheck (networking : Bool) (gcf_res : GRFListCompatibility) :
    Except String GrfCheckOutcome :=
  if networking ∧ gcf_res ≠ .GLC_ALL_GOOD then
    .error "STR_NETWORK_ERROR_CLIENT_NEWGRF_MISMATCH"
  else
    match gcf_res with
    | .GLC_COMPATIBLE =>
        .ok { compatibleWarning := true, disabledWarning := false, pausedError := false }
    | .GLC_NOT_FOUND =>
        .ok { compatibleWarning := false, disabledWarning := true, pausedError := true }
    | .GLC_ALL_GOOD =>
        .ok { compatibleWarning := false, disabledWarning := false, pausedError := false }

/-! ## The Format-Version Oracle -/

/-- Modelled from the spec: IsSavegameVersionBefore, the Format-Version
Oracle, is declared in the saveload headers, which are not among the
supplied sources.  Per the spec it compares the snapshot version pair
against a threshold pair, major first, then minor, a missing minor
being 0. -/
def isOlderThan (vMaj vMin tMaj tMin : Nat) : Bool :=
  decide (vMaj < tMaj) || (decide (vMaj = tMaj) && decide (vMin < tMin))

/-! ## The shape of AfterLoadGame (afterload.cpp lines 290-2171) -/

/-- The version predicate guarding one top-level statement of
AfterLoadGame.  Most statements are guarded by a single
IsSavegameVersionBefore call; the remaining shapes are a conjunction
with a condition on the loaded state (cond), the disjunction on line
460, the conjunction with a negated second oracle call on lines 1445
and 2033, and the negated call on line 823. -/
inductive VersionGate
  | before (maj min : Nat)
  | beforeAnd (maj min : Nat)
  | beforeOrBeforeAnd (m1 n1 m2 n2 : Nat)
  | beforeAndNotBefore (m1 n1 m2 n2 : Nat)
  | notBefore (maj min : Nat)
deriving DecidableEq

/-- Evaluation of a gate at a snapshot version, with cond standing for
the non-version part of a compound condition. -/
def gateHolds (v m : Nat) (cond : Bool) : VersionGate → Bool
  | .before a b => isOlderThan v m a b
  | .beforeAnd a b => isOlderThan v m a b && cond
  | .beforeOrBeforeAnd a b c d => isOlderThan v m a b || (isOlderThan v m c d && cond)
  | .beforeAndNotBefore a b c d => isOlderThan v m a b && !isOlderThan v m c d
  | .notBefore a b => !isOlderThan v m a b

/-- A gate whose truth requires the snapshot to be old: every shape
except the negated oracle call. -/
def gateIsPositive : VersionGate → Bool
  | .notBefore _ _ => false
  | _ => true

/-- One event of the body of AfterLoadGame, in source order: a
version-gated migration statement with its source line and gate, an
unconditional collaborator call, or the single call of
InitializeWindowsAndCaches. -/
inductive ALEvent
  | step (line : Nat) (g : VersionGate)
  | call (line : Nat)
  | initWindowsAndCaches (line : Nat)
deriving DecidableEq

/-- The top-level statements of AfterLoadGame in source order: every
statement guarded by a version predicate (each with its line and gate),
the map adjustment call, and the closing unconditional calls.  The
single InitializeWindowsAndCaches call is on line 2168. -/
def afterLoadEvents : List ALEvent := [
  ALEvent.step 294 (VersionGate.before 98 0),
  ALEvent.step 299 (VersionGate.before 98 0),
  ALEvent.step 301 (VersionGate.before 119 0),
  ALEvent.call 323,
  ALEvent.step 331 (VersionGate.before 2 0),
  ALEvent.step 350 (VersionGate.before 4 1),
  ALEvent.step 368 (VersionGate.before 4 2),
  ALEvent.step 384 (VersionGate.before 4 3),
  ALEvent.step 392 (VersionGate.before 84 0),
  ALEvent.step 418 (VersionGate.before 106 0),
  ALEvent.step 460 (VersionGate.beforeOrBeforeAnd 11 1 147 0),
  ALEvent.step 479 (VersionGate.before 4 2),
  ALEvent.step 480 (VersionGate.before 6 1),
  ALEvent.step 481 (VersionGate.before 21 0),
  ALEvent.step 482 (VersionGate.before 90 0),
  ALEvent.step 483 (VersionGate.before 95 0),
  ALEvent.step 484 (VersionGate.before 96 0),
  ALEvent.step 485 (VersionGate.before 133 0),
  ALEvent.step 489 (VersionGate.before 134 0),
  ALEvent.step 490 (VersionGate.before 138 0),
  ALEvent.step 491 (VersionGate.before 139 0),
  ALEvent.step 492 (VersionGate.before 143 0),
  ALEvent.step 493 (VersionGate.before 159 0),
  ALEvent.step 498 (VersionGate.before 166 0),
  ALEvent.step 499 (VersionGate.before 183 0),
  ALEvent.step 515 (VersionGate.before 17 1),
  ALEvent.step 531 (VersionGate.before 139 0),
  ALEvent.step 633 (VersionGate.before 2 2),
  ALEvent.step 638 (VersionGate.before 6 1),
  ALEvent.step 657 (VersionGate.before 111 0),
  ALEvent.step 663 (VersionGate.before 9 0),
  ALEvent.step 670 (VersionGate.before 16 0),
  ALEvent.step 691 (VersionGate.before 114 0),
  ALEvent.step 700 (VersionGate.before 42 0),
  ALEvent.step 736 (VersionGate.before 24 0),
  ALEvent.step 784 (VersionGate.before 16 1),
  ALEvent.step 789 (VersionGate.before 123 0),
  ALEvent.step 796 (VersionGate.before 25 0),
  ALEvent.step 803 (VersionGate.before 26 0),
  ALEvent.step 812 (VersionGate.before 34 0),
  ALEvent.step 823 (VersionGate.notBefore 27 0),
  ALEvent.step 827 (VersionGate.before 31 0),
  ALEvent.step 852 (VersionGate.before 32 0),
  ALEvent.step 872 (VersionGate.before 36 0),
  ALEvent.step 887 (VersionGate.before 38 0),
  ALEvent.step 895 (VersionGate.before 43 0),
  ALEvent.step 922 (VersionGate.before 45 0),
  ALEvent.step 936 (VersionGate.before 46 0),
  ALEvent.step 943 (VersionGate.before 50 0),
  ALEvent.step 956 (VersionGate.before 49 0),
  ALEvent.step 958 (VersionGate.before 52 0),
  ALEvent.step 969 (VersionGate.before 56 0),
  ALEvent.step 979 (VersionGate.before 57 0),
  ALEvent.step 993 (VersionGate.before 59 0),
  ALEvent.step 1007 (VersionGate.before 58 0),
  ALEvent.step 1018 (VersionGate.before 69 0),
  ALEvent.step 1028 (VersionGate.before 70 0),
  ALEvent.step 1034 (VersionGate.before 74 0),
  ALEvent.step 1044 (VersionGate.before 78 0),
  ALEvent.step 1058 (VersionGate.before 93 0),
  ALEvent.step 1075 (VersionGate.before 94 0),
  ALEvent.step 1094 (VersionGate.before 84 0),
  ALEvent.step 1110 (VersionGate.before 86 0),
  ALEvent.step 1122 (VersionGate.before 87 0),
  ALEvent.step 1179 (VersionGate.before 88 0),
  ALEvent.step 1189 (VersionGate.before 91 0),
  ALEvent.step 1199 (VersionGate.before 62 0),
  ALEvent.step 1211 (VersionGate.before 99 0),
  ALEvent.step 1233 (VersionGate.before 101 0),
  ALEvent.step 1240 (VersionGate.before 102 0),
  ALEvent.step 1247 (VersionGate.before 103 0),
  ALEvent.step 1265 (VersionGate.before 104 0),
  ALEvent.step 1292 (VersionGate.beforeAnd 147 0),
  ALEvent.step 1333 (VersionGate.before 113 0),
  ALEvent.step 1363 (VersionGate.before 114 0),
  ALEvent.step 1374 (VersionGate.before 117 0),
  ALEvent.step 1381 (VersionGate.before 120 0),
  ALEvent.step 1389 (VersionGate.before 121 0),
  ALEvent.step 1421 (VersionGate.before 122 0),
  ALEvent.step 1445 (VersionGate.beforeAndNotBefore 124 0 1 0),
  ALEvent.step 1461 (VersionGate.before 125 0),
  ALEvent.step 1521 (VersionGate.before 126 0),
  ALEvent.step 1539 (VersionGate.before 127 0),
  ALEvent.step 1544 (VersionGate.before 128 0),
  ALEvent.step 1554 (VersionGate.before 131 0),
  ALEvent.step 1564 (VersionGate.before 136 0),
  ALEvent.step 1577 (VersionGate.before 137 0),
  ALEvent.step 1613 (VersionGate.before 140 0),
  ALEvent.step 1623 (VersionGate.before 141 0),
  ALEvent.step 1638 (VersionGate.before 142 0),
  ALEvent.step 1648 (VersionGate.before 146 0),
  ALEvent.step 1664 (VersionGate.before 147 0),
  ALEvent.step 1696 (VersionGate.before 148 0),
  ALEvent.step 1704 (VersionGate.before 149 0),
  ALEvent.step 1726 (VersionGate.before 152 0),
  ALEvent.step 1823 (VersionGate.before 153 0),
  ALEvent.step 1838 (VersionGate.before 156 0),
  ALEvent.step 1856 (VersionGate.before 158 0),
  ALEvent.step 1953 (VersionGate.before 159 0),
  ALEvent.step 1968 (VersionGate.before 160 0),
  ALEvent.step 1976 (VersionGate.before 161 0),
  ALEvent.step 2029 (VersionGate.beforeAnd 164 0),
  ALEvent.step 2033 (VersionGate.beforeAndNotBefore 164 0 32 0),
  ALEvent.step 2052 (VersionGate.before 164 0),
  ALEvent.step 2054 (VersionGate.before 165 0),
  ALEvent.step 2072 (VersionGate.before 165 0),
  ALEvent.step 2084 (VersionGate.before 166 0),
  ALEvent.step 2098 (VersionGate.before 172 0),
  ALEvent.step 2107 (VersionGate.before 175 0),
  ALEvent.step 2113 (VersionGate.before 177 0),
  ALEvent.step 2124 (VersionGate.before 178 0),
  ALEvent.step 2130 (VersionGate.before 182 0),
  ALEvent.step 2149 (VersionGate.before 184 0),
  ALEvent.call 2161,
  ALEvent.call 2162,
  ALEvent.call 2163,
  ALEvent.call 2164,
  ALEvent.call 2166,
  ALEvent.initWindowsAndCaches 2168,
  ALEvent.call 2170]

/-- The event of the cache and derived-index rebuild. -/
def isInitEvent : ALEvent → Bool
  | .initWindowsAndCaches _ => true
  | _ => false

/-- A version-gated migration statement. -/
def isStepEvent : ALEvent → Bool
  | .step _ _ => true
  | _ => false

/-- Every version threshold of a gate is at most (184, 0), the largest
threshold of AfterLoadGame, checked lexicographically.  For a
conjunction the first threshold suffices; a negated gate carries no
bound. -/
def gateBounded : VersionGate → Bool
  | .before a b => decide (a < 184) || (decide (a = 184) && decide (b = 0))
  | .beforeAnd a b => decide (a < 184) || (decide (a = 184) && decide (b = 0))
  | .beforeOrBeforeAnd a b c d =>
      (decide (a < 184) || (decide (a = 184) && decide (b = 0))) &&
      (decide (c < 184) || (decide (c = 184) && decide (d = 0)))
  | .beforeAndNotBefore a b _ _ => decide (a < 184) || (decide (a = 184) && decide (b = 0))
  | .notBefore _ _ => true

/-- Check used over the whole event list: every positively gated step
has all of its thresholds at most (184, 0). -/
def stepGatesBounded : ALEvent → Bool
  | .step _ g => !gateIsPositive g || gateBounded g
  | _ => true

/-- The globals written by AfterLoadGame without a version gate that the
idempotence claim cites: _cur_tileloop_tile (line 318) and the road_side
setting (line 437). -/
structure UngatedGlobals where
  cur_tileloop_tile : Nat
  road_side : Nat
deriving DecidableEq

/-- The two non-version-gated normalizing writes of AfterLoadGame cited
by the idempotence claim: a zeroed tile-loop LFSR state is made 1
(line 320), and a non-zero road_side is rewritten to 1 (line 437). -/
def afterLoadUngatedWrites (s : UngatedGlobals) : UngatedGlobals :=
  let s1 := if s.cur_tileloop_tile = 0 then { s with cur_tileloop_tile := 1 } else s
  if s1.road_side ≠ 0 then { s1 with road_side := 1 } else s1

/-! ## Object pool creation (AfterLoadGame, version 147 step, lines 1292-1331) -/

/-- One map cell as the object conversion observes it: whether it is of
type MP_OBJECT, and its m2 and m4 fields. -/
structure ObjCell where
  isObject : Bool
  m2 : Nat
  m4 : Nat
deriving DecidableEq

/-- The state of the object conversion: the map cells, the next free
Object pool index (the pool is empty when the step runs, so indices are
handed out consecutively from 0), and the allocated objects as pairs of
pool index and location tile, in allocation order. -/
structure ObjConvState where
  cells : List ObjCell
  nextIndex : Nat
  objs : List (Nat × Nat)
deriving DecidableEq

/-- Modelled from the spec: map cells are addressed by a flattened tile
index, so TileXY of the two offset nibbles GB(offset, 0, 4) and
GB(offset, 4, 4) is their y component times the map width plus their x
component. -/
def objDelta (mapSizeX m4 : Nat) : Nat := (m4 / 16 % 16) * mapSizeX + m4 % 16

/-- The northern root tile t - TileXY(GB(offset,0,4), GB(offset,4,4)),
with TileIndex arithmetic taken modulo 2 to the 32. -/
def northernTile (mapSizeX t m4 : Nat) : Nat :=
  (t + (2 ^ 32 - objDelta mapSizeX m4 % 2 ^ 32)) % 2 ^ 32

/-- The body of the tile loop of the version 147 object conversion
(afterload.cpp lines 1294-1330) at tile t.  Non-object tiles are
skipped; with no towns the tile is cleared (DoClearSquare); otherwise
m4 is reset and either a fresh pooled Object is allocated and its index
written to m2 (offset 0, subject to Object::CanAllocateItem, whose
failure throws SlException with STR_ERROR_TOO_MANY_OBJECTS), or m2 is
copied from the northern root tile, which the code asserts to be an
object tile. -/
def objStep (mapSizeX cap townCount : Nat) (s : ObjConvState) (t : Nat) :
    Except String ObjConvState :=
  match s.cells.get? t with
  | none => .ok s
  | some c =>
      if !c.isObject then .ok s
      else if townCount = 0 then
        .ok { s with cells := s.cells.set t { isObject := false, m2 := 0, m4 := 0 } }
      else if c.m4 = 0 then
        if s.nextIndex < cap then
          .ok { cells := s.cells.set t { isObject := true, m2 := s.nextIndex, m4 := 0 },
                nextIndex := s.nextIndex + 1,
                objs := s.objs ++ [(s.nextIndex, t)] }
        else .error "STR_ERROR_TOO_MANY_OBJECTS"
      else
        match s.cells.get? (northernTile mapSizeX t c.m4) with
        | some nc =>
            if nc.isObject then
              .ok { s with cells := s.cells.set t { isObject := true, m2 := nc.m2, m4 := 0 } }
            else .error "assert failure: northern tile is not an object tile"
        | none => .error "assert failure: northern tile is not an object tile"

/-- The tile loop of the version 147 object conversion over a list of
tile indices, aborting at the first failure. -/
def objRun (mapSizeX cap townCount : Nat) : ObjConvState → List Nat → Except String ObjConvState
  | s, [] => .ok s
  | s, t :: ts =>
      match objStep mapSizeX cap townCount s t with
      | .error e => .error e
      | .ok s2 => objRun mapSizeX cap townCount s2 ts

/-- The whole version 147 object conversion: the loop over every tile
index in ascending order, starting from an empty Object pool (the step
only runs when Object::GetNumItems() is 0). -/
def convertObjectTiles (mapSizeX cap townCount : Nat) (cells : List ObjCell) :
    Except String ObjConvState :=
  objRun mapSizeX cap townCount { cells := cells, nextIndex := 0, objs := [] }
    (List.range cells.length)

/-- A two-cell map: a root object cell with offset 0, and an object cell
whose offset nibble points one tile back to the root. -/
def objWitnessCells : List ObjCell :=
  [{ isObject := true, m2 := 7, m4 := 0 }, { isObject := true, m2 := 9, m4 := 1 }]

/-- The state the conversion reaches on objWitnessCells with map width
4: one object allocated at tile 0, both cells pointing at it. -/
def objWitnessFinal : ObjConvState :=
  { cells := [{ isObject := true, m2 := 0, m4 := 0 }, { isObject := true, m2 := 0, m4 := 0 }],
    nextIndex := 1, objs := [(0, 0)] }

/-! ## The animated tile table loader (animated_tile_sl.cpp lines 36-51) -/

/-- The size in bytes of one entry of the fixed animated tile table:
2 before legacy version 6 (ReadUint16), 4 from then on (ReadUint32). -/
def anitEntrySize (pre6 : Bool) : Nat := if pre6 then 2 else 4

/-- The fixed-table loop of Load_ANIT (animated_tile_sl.cpp lines
42-49), with vals i the integer the reader decodes for the i-th entry
(the chunked byte reader is external; per the spec it hands the core
raw integers from the stream, each read consuming the entry size in
bytes and Skip consuming the byte count it is given).  The result is
the list of stored tiles and the number of bytes consumed: a zero entry
stops the loop after a Skip of the 255 - count remaining entries. -/
def anitLoop (sz : Nat) (vals : Nat → Nat) : Nat → Nat → List Nat × Nat
  | 0, _ => ([], 0)
  | fuel + 1, i =>
      let tile := vals i
      if tile = 0 then ([], sz + (255 - i) * sz)
      else
        let r := anitLoop sz vals fuel (i + 1)
        (tile :: r.1, sz + r.2)

/-- The pre-version-80 branch of Load_ANIT: 256 table entries, 16 bit
each before legacy version 6 and 32 bit each otherwise. -/
def Load_ANIT_old (ottdVersion : Nat) (vals : Nat → Nat) : List Nat × Nat :=
  anitLoop (anitEntrySize (decide (ottdVersion < 6))) vals 256 0

/-! ## Theorems -/

/-- A neighbour that is not of the corrupt shape never aborts the scan. -/
theorem scanNeighbour_ok_of_not_invalid (f : WaterFlags) (n : Neighbour)
    (h : isInvalidWaterNeighbour n = false) : ∃ f2, scanNeighbour f n = .ok f2 := by
  rcases n with ⟨tt, ic, il, wc, rg, ts⟩
  cases tt <;> cases ic <;> cases il <;> cases wc <;>
    simp_all [scanNeighbour, isInvalidWaterNeighbour]

/-- A neighbour of the corrupt shape aborts the scan with the SlCorrupt
message. -/
theorem scanNeighbour_error_of_invalid (f : WaterFlags) (n : Neighbour)
    (h : isInvalidWaterNeighbour n = true) :
    scanNeighbour f n = .error "Invalid water class for tile" := by
  rcases n with ⟨tt, ic, il, wc, rg, ts⟩
  cases tt <;> cases ic <;> cases il <;> cases wc <;>
    simp_all [scanNeighbour, isInvalidWaterNeighbour]

/-- If any neighbour in the list has the corrupt shape, the whole scan
returns the SlCorrupt message, from any accumulator. -/
theorem scanNeighbours_error_of_invalid (ns : List Neighbour)
    (h : ∃ n ∈ ns, isInvalidWaterNeighbour n = true) (f : WaterFlags) :
    scanNeighbours f ns = .error "Invalid water class for tile" := by
  induction ns generalizing f with
  | nil => rcases h with ⟨n, hn, _⟩; cases hn
  | cons n ns ih =>
      rcases h with ⟨m, hm, hinv⟩
      rcases List.mem_cons.mp hm with rfl | hm2
      · simp [scanNeighbours, scanNeighbour_error_of_invalid f m hinv]
      · cases hhead : isInvalidWaterNeighbour n with
        | true => simp [scanNeighbours, scanNeighbour_error_of_invalid f n hhead]
        | false =>
            rcases scanNeighbour_ok_of_not_invalid f n hhead with ⟨f2, hf2⟩
            simpa [scanNeighbours, hf2] using ih ⟨m, hm2, hinv⟩ f2

/-- C1 counterexample: on a flat interior tile with exactly one river
and one canal neighbour, GuessWaterClass assigns canal, not river, so
the stated tie-break (river beats canal) is false on the code. -/
theorem guessWaterClass_riverCanal_counterexample :
    GuessWaterClass riverCanalTile false = .ok .canal ∧
    (Except.ok WaterClass.canal : Except String WaterClass) ≠ .ok .river := by
  exact ⟨rfl, by simp⟩

/-- C1 (amended): on a flat interior tile, when the neighbour scan has
found at least one river and at least one canal neighbour the assigned
class is canal (canal beats river; river only beats sea), and when the
scan has found no sea, canal or river neighbour and invalid is not
allowed the assigned class is canal. -/
theorem guessWaterClass_tiebreak (t : GuessTile) (f : WaterFlags) (allow_invalid : Bool)
    (hflat : t.flat = true) (hborder : onMapBorder t = false)
    (hscan : scanNeighbours { has_water := false, has_canal := false, has_river := false }
      t.neighbours = .ok f) :
    (f.has_river = true → f.has_canal = true →
      GuessWaterClass t allow_invalid = .ok .canal) ∧
    (f.has_water = false → f.has_canal = false → f.has_river = false →
      GuessWaterClass t false = .ok .canal) := by
  constructor
  · intro hr hc
    simp [GuessWaterClass, hflat, hborder, hscan, hr, hc]
  · intro hw hc hr
    simp [GuessWaterClass, hflat, hborder, hscan, hw, hc, hr]

/-- Witness for the amended C1 at a concrete tile with one river and one
canal neighbour. -/
theorem guessWaterClass_tiebreak_witness :
    ((WaterFlags.mk false true true).has_river = true →
      (WaterFlags.mk false true true).has_canal = true →
      GuessWaterClass riverCanalTile false = .ok .canal) ∧
    ((WaterFlags.mk false true true).has_water = false →
      (WaterFlags.mk false true true).has_canal = false →
      (WaterFlags.mk false true true).has_river = false →
      GuessWaterClass riverCanalTile false = .ok .canal) :=
  guessWaterClass_tiebreak riverCanalTile (WaterFlags.mk false true true) false rfl rfl rfl

/-- C8: on a flat interior tile whose neighbour scan completes having
found no sea, canal or river neighbour, GuessWaterClass with
allow_invalid set assigns WATER_CLASS_INVALID and raises no failure. -/
theorem guessWaterClass_unclassified_marker (t : GuessTile)
    (hflat : t.flat = true) (hborder : onMapBorder t = false)
    (hscan : scanNeighbours { has_water := false, has_canal := false, has_river := false }
      t.neighbours = .ok { has_water := false, has_canal := false, has_river := false }) :
    GuessWaterClass t true = .ok .invalid := by
  simp [GuessWaterClass, hflat, hborder, hscan]

/-- Witness for C8 at a concrete landlocked tile. -/
theorem guessWaterClass_unclassified_marker_witness :
    GuessWaterClass landlockedTile true = .ok .invalid :=
  guessWaterClass_unclassified_marker landlockedTile rfl rfl rfl

/-- C9: a flat tile whose x or y coordinate is 0 or the largest
coordinate of a usable tile (MapMaxX - 1 resp. MapMaxY - 1, the map
edge column and row being void) is assigned WATER_CLASS_SEA, whatever
its neighbours are and whatever allow_invalid is. -/
theorem guessWaterClass_border_sea (x y mapMaxX mapMaxY : Nat) (ns : List Neighbour)
    (allow_invalid : Bool)
    (hborder : x = 0 ∨ y = 0 ∨ x = mapMaxX - 1 ∨ y = mapMaxY - 1) :
    GuessWaterClass
      { flat := true, x := x, y := y, mapMaxX := mapMaxX, mapMaxY := mapMaxY,
        neighbours := ns } allow_invalid = .ok .sea := by
  have hb : onMapBorder
      { flat := true, x := x, y := y, mapMaxX := mapMaxX, mapMaxY := mapMaxY,
        neighbours := ns } = true := by
    simp only [onMapBorder]
    rcases hborder with h | h | h | h <;> simp [h]
  simp [GuessWaterClass, hb]

/-- Witness for C9: a flat tile in column 0 with a river neighbour is
classified sea without the neighbour being considered. -/
theorem guessWaterClass_border_sea_witness :
    GuessWaterClass
      { flat := true, x := 0, y := 5, mapMaxX := 8, mapMaxY := 8,
        neighbours := [riverNeighbour] } false = .ok .sea :=
  guessWaterClass_border_sea 0 5 8 8 [riverNeighbour] false (Or.inl rfl)

/-- C3 counterexample: a ground vehicle on a bridge tile whose direction
is 0 (DIR_N, not one of the four diagonal directions DIR_NE, DIR_SE,
DIR_SW, DIR_NW) and whose bridge direction value 4 is itself outside
the four DiagDirection values is skipped by the version 42 step, not
rejected: the throw is guarded by a comparison that such a vehicle
never passes. -/
theorem bridge_invalid_direction_skipped :
    fixBridgeVehicle
      { isGround := true, onBridge := true, bridgeDir := 4, direction := 0,
        xPos := 0, yPos := 0, zPos := 0, slopeZ := 0 } = .ok .skip := by
  rfl

/-- C3 (amended): a corrupt state aborts the load with the SlCorrupt
message: GuessWaterClass without allow_invalid rejects a non-flat tile
and rejects a flat interior tile one of whose water neighbours carries
an invalid water class; in the version 42 bridge step the rejection of
an invalid direction fires exactly when the bridge direction value
equals DirToDiagDir of the vehicle direction while lying outside the
four DiagDirection values 0..3 (a vehicle not passing that comparison
is skipped without failure). -/
theorem afterload_corrupt_rejection :
    (∀ t : GuessTile, t.flat = false →
      GuessWaterClass t false = .error "Invalid water class for dry tile") ∧
    (∀ t : GuessTile, t.flat = true → onMapBorder t = false →
      (∃ n ∈ t.neighbours, isInvalidWaterNeighbour n = true) →
      GuessWaterClass t false = .error "Invalid water class for tile") ∧
    (∀ v : BridgeVehicle, v.isGround = true → v.onBridge = true →
      (fixBridgeVehicle v = .error "Invalid vehicle direction" ↔
        (v.bridgeDir = DirToDiagDir v.direction ∧ 4 ≤ v.bridgeDir))) := by
  refine ⟨?_, ?_, ?_⟩
  · intro t hflat
    simp [GuessWaterClass, hflat]
  · intro t hflat hborder hbad
    simp [GuessWaterClass, hflat, hborder,
      scanNeighbours_error_of_invalid t.neighbours hbad]
  · intro v hg hb
    simp only [fixBridgeVehicle, hg, hb, Bool.not_true, Bool.false_eq_true, if_false, if_true]
    by_cases hd : v.bridgeDir = DirToDiagDir v.direction
    · simp only [hd, ne_eq, not_true_eq_false, if_false]
      by_cases h0 : DirToDiagDir v.direction = 0
      · simp only [h0, if_true]
        constructor
        · intro h; by_cases hx : v.xPos % 16 ≠ 0 <;> simp [hx] at h
        · rintro ⟨-, h4⟩; omega
      · simp only [h0, if_false]
        by_cases h1 : DirToDiagDir v.direction = 1
        · simp only [h1, if_true]
          constructor
          · intro h; by_cases hy : v.yPos % 16 ≠ 15 <;> simp [hy] at h
          · rintro ⟨-, h4⟩; omega
        · simp only [h1, if_false]
          by_cases h2 : DirToDiagDir v.direction = 2
          · simp only [h2, if_true]
            constructor
            · intro h; by_cases hx : v.xPos % 16 ≠ 15 <;> simp [hx] at h
            · rintro ⟨-, h4⟩; omega
          · simp only [h2, if_false]
            by_cases h3 : DirToDiagDir v.direction = 3
            · simp only [h3, if_true]
              constructor
              · intro h; by_cases hy : v.yPos % 16 ≠ 0 <;> simp [hy] at h
              · rintro ⟨-, h4⟩; omega
            · simp only [h3, if_false]
              constructor
              · intro _; exact ⟨by simp [hd], by omega⟩
              · intro _; trivial
    · simp only [ne_eq, hd, not_false_eq_true, if_true]
      constructor
      · intro h; cases h
      · rintro ⟨heq, -⟩
        exact heq.elim

/-- C6: when the NewGRF check returns anything but GLC_ALL_GOOD, a
networking load aborts with the SlException for a NewGRF mismatch,
while a non-networking load continues and instead shows a critical
warning, with the error-paused state set exactly for missing content
(GLC_NOT_FOUND). -/
theorem afterload_grf_strictness :
    (∀ g : GRFListCompatibility, g ≠ .GLC_ALL_GOOD →
      afterLoadGrfCheck true g = .error "STR_NETWORK_ERROR_CLIENT_NEWGRF_MISMATCH") ∧
    (∀ g : GRFListCompatibility, g ≠ .GLC_ALL_GOOD →
      ∃ o : GrfCheckOutcome, afterLoadGrfCheck false g = .ok o ∧
        (o.compatibleWarning = true ∨ o.disabledWarning = true) ∧
        (o.pausedError = true ↔ g = .GLC_NOT_FOUND)) := by
  constructor
  · intro g hg
    cases g with
    | GLC_ALL_GOOD => exact absurd rfl hg
    | GLC_COMPATIBLE => rfl
    | GLC_NOT_FOUND => rfl
  · intro g hg
    cases g with
    | GLC_ALL_GOOD => exact absurd rfl hg
    | GLC_COMPATIBLE =>
        exact ⟨_, rfl, Or.inl rfl, by simp [afterLoadGrfCheck]⟩
    | GLC_NOT_FOUND =>
        exact ⟨_, rfl, Or.inr rfl, by simp [afterLoadGrfCheck]⟩

/-- C5: the Format-Version Oracle agrees with the strict lexicographic
order on (major, minor) pairs, is transitive and asymmetric (hence the
induced order is antisymmetric), and a version with minor 0 is older
than the same major with a positive minor. -/
theorem isOlderThan_strict_lex_order :
    (∀ a b c d : Nat, isOlderThan a b c d = true ↔
      Prod.Lex (· < ·) (· < ·) (a, b) (c, d)) ∧
    (∀ a b c d e f : Nat, isOlderThan a b c d = true → isOlderThan c d e f = true →
      isOlderThan a b e f = true) ∧
    (∀ a b c d : Nat, isOlderThan a b c d = true → isOlderThan c d a b = false) ∧
    (∀ a b : Nat, 0 < b → isOlderThan a 0 a b = true) := by
  have hiff : ∀ a b c d : Nat,
      isOlderThan a b c d = true ↔ (a < c ∨ (a = c ∧ b < d)) := by
    intro a b c d
    simp [isOlderThan]
  refine ⟨?_, ?_, ?_, ?_⟩
  · intro a b c d
    rw [hiff]
    constructor
    · rintro (h | ⟨rfl, h⟩)
      · exact Prod.Lex.left _ _ h
      · exact Prod.Lex.right _ h
    · intro h
      cases h with
      | left _ _ h => exact Or.inl h
      | right _ h => exact Or.inr ⟨rfl, h⟩
  · intro a b c d e f h1 h2
    rw [hiff] at h1 h2 ⊢
    omega
  · intro a b c d h1
    have h2 := hiff c d a b
    rw [hiff] at h1
    cases hcd : isOlderThan c d a b with
    | false => rfl
    | true => rw [hcd] at h2; simp only [true_iff] at h2; omega
  · intro a b hb
    rw [hiff]
    omega

/-- C7: in the body of AfterLoadGame the cache and derived-index rebuild
InitializeWindowsAndCaches appears exactly once, and no version-gated
migration statement follows it. -/
theorem initWindowsAndCaches_once_after_all_steps :
    afterLoadEvents.countP isInitEvent = 1 ∧
    (afterLoadEvents.dropWhile (fun e => !isInitEvent e)).all
      (fun e => !isStepEvent e) = true := by
  constructor
  · rfl
  · rfl

/-- Monotonicity of the oracle: when the snapshot is not older than
(184, 0), it is not older than any threshold at most (184, 0). -/
theorem isOlderThan_mono_false (v m a b : Nat)
    (hnew : isOlderThan v m 184 0 = false)
    (hle : a < 184 ∨ (a = 184 ∧ b = 0)) : isOlderThan v m a b = false := by
  simp only [isOlderThan, Bool.or_eq_false_iff, decide_eq_false_iff_not,
    Bool.and_eq_false_iff] at hnew ⊢
  omega

/-- Every positively gated step of AfterLoadGame has its thresholds at
most (184, 0). -/
theorem afterLoadEvents_gates_bounded :
    afterLoadEvents.all stepGatesBounded = true := by
  rfl

/-- A bounded positive gate evaluates false on a snapshot not older
than (184, 0), whatever the non-version part of its condition is. -/
theorem gateHolds_false_of_bounded (v m : Nat) (cond : Bool) (g : VersionGate)
    (hnew : isOlderThan v m 184 0 = false)
    (hpos : gateIsPositive g = true) (hbd : gateBounded g = true) :
    gateHolds v m cond g = false := by
  cases g with
  | before a b =>
      simp only [gateBounded, Bool.or_eq_true, Bool.and_eq_true,
        decide_eq_true_eq] at hbd
      exact isOlderThan_mono_false v m a b hnew (by tauto)
  | beforeAnd a b =>
      simp only [gateBounded, Bool.or_eq_true, Bool.and_eq_true,
        decide_eq_true_eq] at hbd
      simp [gateHolds, isOlderThan_mono_false v m a b hnew (by tauto)]
  | beforeOrBeforeAnd a b c d =>
      simp only [gateBounded, Bool.and_eq_true, Bool.or_eq_true,
        decide_eq_true_eq] at hbd
      simp [gateHolds, isOlderThan_mono_false v m a b hnew (by tauto),
        isOlderThan_mono_false v m c d hnew (by tauto)]
  | beforeAndNotBefore a b c d =>
      simp only [gateBounded, Bool.or_eq_true, Bool.and_eq_true,
        decide_eq_true_eq] at hbd
      simp [gateHolds, isOlderThan_mono_false v m a b hnew (by tauto)]
  | notBefore a b => cases hpos

/-- C2 counterexample: on a store whose tile-loop LFSR state is 0, the
non-version-gated writes of AfterLoadGame change the global state, so
the pass is not mutation-free even when every version predicate is
false. -/
theorem afterLoadGame_newest_still_writes :
    afterLoadUngatedWrites { cur_tileloop_tile := 0, road_side := 1 } =
      { cur_tileloop_tile := 1, road_side := 1 } ∧
    ({ cur_tileloop_tile := 1, road_side := 1 } : UngatedGlobals) ≠
      { cur_tileloop_tile := 0, road_side := 1 } := by
  exact ⟨rfl, by decide⟩

/-- C2 (amended): on a snapshot tagged at the newest format version
(not older than the largest threshold (184, 0)), every positively
version-gated step of AfterLoadGame has a false predicate, whatever the
non-version parts of the compound conditions evaluate to; but the pass
still performs writes that are not version-gated: the zero tile-loop
LFSR state is rewritten to 1 (and one statement, gated on NOT before
version 27, runs on new snapshots by design). -/
theorem afterLoadGame_newest_predicates_false (v m : Nat) (cond : Bool)
    (hnew : isOlderThan v m 184 0 = false) :
    (∀ line g, ALEvent.step line g ∈ afterLoadEvents → gateIsPositive g = true →
      gateHolds v m cond g = false) ∧
    afterLoadUngatedWrites { cur_tileloop_tile := 0, road_side := 1 } ≠
      { cur_tileloop_tile := 0, road_side := 1 } := by
  constructor
  · intro line g hmem hpos
    have hall := List.all_eq_true.mp afterLoadEvents_gates_bounded _ hmem
    simp only [stepGatesBounded, hpos, Bool.not_true, Bool.false_or] at hall
    exact gateHolds_false_of_bounded v m cond g hnew hpos hall
  · decide

/-- Witness for the amended C2 at the concrete snapshot version
(184, 0). -/
theorem afterLoadGame_newest_predicates_false_witness :
    (∀ line g, ALEvent.step line g ∈ afterLoadEvents → gateIsPositive g = true →
      gateHolds 184 0 true g = false) ∧
    afterLoadUngatedWrites { cur_tileloop_tile := 0, road_side := 1 } ≠
      { cur_tileloop_tile := 0, road_side := 1 } :=
  afterLoadGame_newest_predicates_false 184 0 true (by decide)

/-- The fixed-table loop consumes one entry size per remaining slot:
when the loop starts at count i with fuel covering the rest of the
256-entry table, the bytes consumed are fuel times the entry size,
wherever (and whether) the zero terminator occurs. -/
theorem anitLoop_bytes (sz : Nat) (vals : Nat → Nat) :
    ∀ fuel i, fuel + i = 256 → (anitLoop sz vals fuel i).2 = fuel * sz := by
  intro fuel
  induction fuel with
  | zero => intro i _; simp [anitLoop]
  | succ n ih =>
      intro i hi
      by_cases h0 : vals i = 0
      · simp only [anitLoop, h0, if_true]
        have : 255 - i = n := by omega
        rw [this]
        ring
      · simp only [anitLoop, h0, if_false]
        have := ih (i + 1) (by omega)
        simp only [this]
        ring

/-- The fixed-table loop stores at most fuel entries. -/
theorem anitLoop_length (sz : Nat) (vals : Nat → Nat) :
    ∀ fuel i, (anitLoop sz vals fuel i).1.length ≤ fuel := by
  intro fuel
  induction fuel with
  | zero => intro i; exact Nat.le_refl 0
  | succ n ih =>
      intro i
      by_cases h0 : vals i = 0
      · simp [anitLoop, h0]
      · simp only [anitLoop, h0, if_false, List.length_cons]
        exact Nat.succ_le_succ (ih (i + 1))

/-- The entries the fixed-table loop stores are exactly the scanned
entries up to but excluding the first zero entry. -/
theorem anitLoop_stores (sz : Nat) (vals : Nat → Nat) :
    ∀ fuel i, (anitLoop sz vals fuel i).1 =
      ((List.range' i fuel).map vals).takeWhile (fun x => x != 0) := by
  intro fuel
  induction fuel with
  | zero => intro i; rfl
  | succ n ih =>
      intro i
      rw [List.range'_succ]
      by_cases h0 : vals i = 0
      · simp [anitLoop, h0, List.takeWhile]
      · have hne : (vals i != 0) = true := by simp [h0]
        simp [anitLoop, h0, List.takeWhile, hne, ih (i + 1)]

/-- C10: the pre-version-80 branch of Load_ANIT always consumes exactly
256 table entries from the stream, 2 bytes each before legacy version 6
and 4 bytes each otherwise, independently of where (and whether) the
zero terminator occurs; it stores the entries before the first zero
entry, so the resulting animated-tile count is at most 256. -/
theorem load_anit_old_fixed_table :
    (∀ (ottdVersion : Nat) (vals : Nat → Nat),
      (Load_ANIT_old ottdVersion vals).2 =
        256 * anitEntrySize (decide (ottdVersion < 6))) ∧
    (∀ (ottdVersion : Nat) (vals : Nat → Nat),
      (Load_ANIT_old ottdVersion vals).1 =
        ((List.range 256).map vals).takeWhile (fun x => x != 0)) ∧
    (∀ (ottdVersion : Nat) (vals : Nat → Nat),
      (Load_ANIT_old ottdVersion vals).1.length ≤ 256) ∧
    anitEntrySize true = 2 ∧ anitEntrySize false = 4 := by
  refine ⟨?_, ?_, ?_, rfl, rfl⟩
  · intro v vals
    rw [Load_ANIT_old, anitLoop_bytes _ vals 256 0 rfl]
  · intro v vals
    rw [Load_ANIT_old, anitLoop_stores _ vals 256 0, List.range_eq_range']
  · intro v vals
    exact anitLoop_length _ vals 256 0

/-- One conversion step preserves the map length, leaves every other
tile untouched, and either allocates nothing or appends exactly one
object located at the processed tile. -/
theorem objStep_spec (W cap tc : Nat) (s s2 : ObjConvState) (t : Nat)
    (h : objStep W cap tc s t = .ok s2) :
    s2.cells.length = s.cells.length ∧
    (∀ j, j ≠ t → s2.cells.get? j = s.cells.get? j) ∧
    (s2.objs = s.objs ∨ s2.objs = s.objs ++ [(s.nextIndex, t)]) := by
  unfold objStep at h
  split at h
  · cases h; exact ⟨rfl, fun _ _ => rfl, Or.inl rfl⟩
  · split at h
    · cases h; exact ⟨rfl, fun _ _ => rfl, Or.inl rfl⟩
    · split at h
      · cases h
        exact ⟨by simp, fun j hj => List.get?_set_ne _ _ (Ne.symm hj), Or.inl rfl⟩
      · split at h
        · split at h
          · cases h
            exact ⟨by simp, fun j hj => List.get?_set_ne _ _ (Ne.symm hj), Or.inr rfl⟩
          · cases h
        · split at h
          · split at h
            · cases h
              exact ⟨by simp, fun j hj => List.get?_set_ne _ _ (Ne.symm hj), Or.inl rfl⟩
            · cases h
          · cases h

/-- The successful allocation branch of one conversion step: an object
tile with offset 0 gets a fresh pool index on its m2, and the object
list grows by exactly that object. -/
theorem objStep_alloc (W cap tc : Nat) (s s2 : ObjConvState) (t : Nat) (c : ObjCell)
    (hc : s.cells.get? t = some c) (hobj : c.isObject = true) (hm4 : c.m4 = 0)
    (htc : tc ≠ 0) (h : objStep W cap tc s t = .ok s2) :
    s2.cells = s.cells.set t { isObject := true, m2 := s.nextIndex, m4 := 0 } ∧
    s2.nextIndex = s.nextIndex + 1 ∧
    s2.objs = s.objs ++ [(s.nextIndex, t)] := by
  unfold objStep at h
  rw [hc] at h
  simp only [hobj, hm4, htc, Bool.not_true, Bool.false_eq_true, if_false, if_true] at h
  split at h
  · cases h; exact ⟨rfl, rfl, rfl⟩
  · cases h

/-- The successful copy branch of one conversion step: an object tile
with a non-zero offset copies m2 from the northern root tile, which the
step checked to be an object tile, and allocates nothing. -/
theorem objStep_offset (W cap tc : Nat) (s s2 : ObjConvState) (t : Nat) (c : ObjCell)
    (hc : s.cells.get? t = some c) (hobj : c.isObject = true) (hm4 : c.m4 ≠ 0)
    (htc : tc ≠ 0) (h : objStep W cap tc s t = .ok s2) :
    ∃ nc : ObjCell, s.cells.get? (northernTile W t c.m4) = some nc ∧ nc.isObject = true ∧
      s2.cells = s.cells.set t { isObject := true, m2 := nc.m2, m4 := 0 } ∧
      s2.nextIndex = s.nextIndex ∧ s2.objs = s.objs := by
  unfold objStep at h
  rw [hc] at h
  simp only [hobj, hm4, htc, Bool.not_true, Bool.false_eq_true, if_false] at h
  split at h
  next nc heq =>
    split at h
    · next hno => cases h; exact ⟨nc, heq, hno, rfl, rfl, rfl⟩
    · cases h
  next heq => cases h

/-- Unfolding one iteration of the conversion loop. -/
theorem objRun_cons (W cap tc : Nat) (s sf : ObjConvState) (t : Nat) (ts : List Nat)
    (h : objRun W cap tc s (t :: ts) = .ok sf) :
    ∃ s2, objStep W cap tc s t = .ok s2 ∧ objRun W cap tc s2 ts = .ok sf := by
  simp only [objRun] at h
  split at h
  · cases h
  · next s2 heq => exact ⟨s2, heq, h⟩

/-- A successful conversion over a concatenation decomposes into two
successful runs. -/
theorem objRun_append (W cap tc : Nat) (ts1 ts2 : List Nat) (s sf : ObjConvState)
    (h : objRun W cap tc s (ts1 ++ ts2) = .ok sf) :
    ∃ smid, objRun W cap tc s ts1 = .ok smid ∧ objRun W cap tc smid ts2 = .ok sf := by
  induction ts1 generalizing s with
  | nil => exact ⟨s, rfl, h⟩
  | cons t ts ih =>
      rw [List.cons_append] at h
      obtain ⟨s2, hstep, hrest⟩ := objRun_cons W cap tc s sf t (ts ++ ts2) h
      obtain ⟨smid, h1, h2⟩ := ih s2 hrest
      refine ⟨smid, ?_, h2⟩
      simp only [objRun, hstep]
      exact h1

/-- A successful conversion run preserves the map length, leaves tiles
outside the processed list untouched, and only appends objects located
on processed tiles. -/
theorem objRun_spec (W cap tc : Nat) (ts : List Nat) (s sf : ObjConvState)
    (h : objRun W cap tc s ts = .ok sf) :
    sf.cells.length = s.cells.length ∧
    (∀ j, (∀ t ∈ ts, t ≠ j) → sf.cells.get? j = s.cells.get? j) ∧
    (∃ new, sf.objs = s.objs ++ new ∧ ∀ p ∈ new, p.2 ∈ ts) := by
  induction ts generalizing s with
  | nil =>
      simp only [objRun] at h
      cases h
      exact ⟨rfl, fun _ _ => rfl, ⟨[], by simp, by simp⟩⟩
  | cons t ts ih =>
      obtain ⟨s2, hstep, hrest⟩ := objRun_cons W cap tc s sf t ts h
      obtain ⟨hl1, hf1, new2, hobjs2, hloc2⟩ := ih s2 hrest
      obtain ⟨hl0, hf0, hor0⟩ := objStep_spec W cap tc s s2 t hstep
      refine ⟨hl1.trans hl0, ?_, ?_⟩
      · intro j hj
        rw [hf1 j (fun u hu => hj u (List.mem_cons_of_mem _ hu)),
          hf0 j (Ne.symm (hj t (List.mem_cons_self t ts)))]
      · rcases hor0 with ho | ho
        · exact ⟨new2, by rw [hobjs2, ho],
            fun p hp => List.mem_cons_of_mem _ (hloc2 p hp)⟩
        · refine ⟨(s.nextIndex, t) :: new2, ?_, ?_⟩
          · rw [hobjs2, ho]; simp
          · intro p hp
            rcases List.mem_cons.mp hp with rfl | hp2
            · exact List.mem_cons_self _ _
            · exact List.mem_cons_of_mem _ (hloc2 p hp2)

/-- Splitting the ascending tile enumeration at one index. -/
theorem range_split (n i : Nat) (h : i < n) :
    List.range n = List.range' 0 i ++ (i :: List.range' (i + 1) (n - i - 1)) := by
  rw [List.range_eq_range']
  have e2 := List.range'_append 0 i (n - i) 1
  simp only [Nat.zero_add, Nat.one_mul] at e2
  conv_lhs => rw [show n = n - i + i from by omega]
  rw [← e2]
  congr 1
  rw [show n - i = (n - i - 1) + 1 from by omega, List.range'_succ]
  simp

/-- With the offset in range and the tile index within the TileIndex
width, the wrapped northern-tile arithmetic is plain subtraction. -/
theorem northernTile_eq (W t m4 : Nat) (ht : t < 2 ^ 32) (hd : objDelta W m4 ≤ t) :
    northernTile W t m4 = t - objDelta W m4 := by
  unfold northernTile
  have h32 : (2 : Nat) ^ 32 = 4294967296 := by norm_num
  rw [h32] at ht ⊢
  omega

/-- A non-zero byte offset moves at least one tile north. -/
theorem objDelta_pos (W m4 : Nat) (hW : 0 < W) (hm : m4 ≠ 0) (hlt : m4 < 256) :
    0 < objDelta W m4 := by
  unfold objDelta
  rcases Nat.eq_zero_or_pos (m4 % 16) with h | h
  · have hq : 0 < m4 / 16 % 16 := by omega
    have h2 : 0 < (m4 / 16 % 16) * W := Nat.mul_pos hq hW
    exact Nat.lt_of_lt_of_le h2 (Nat.le_add_right _ _)
  · exact Nat.lt_of_lt_of_le h (Nat.le_add_left _ _)

/-- C4: on a pre-147 snapshot with an empty object pool and a non-empty
town pool, a successful conversion gives every object cell with zero
stored offset exactly one newly allocated pooled object, whose index is
written back into the cell m2 field, and every object cell with a
non-zero offset the m2 of the northern root cell it points to, with no
object allocated for it. -/
theorem convertObjectTiles_relocation (W cap tc : Nat) (cells : List ObjCell)
    (final : ObjConvState) (hW : 0 < W) (htc : 0 < tc) (hsz : cells.length ≤ 2 ^ 32)
    (hrun : convertObjectTiles W cap tc cells = .ok final) :
    (∀ i c, cells.get? i = some c → c.isObject = true → c.m4 = 0 →
      ∃ x, final.cells.get? i = some { isObject := true, m2 := x, m4 := 0 } ∧
        (x, i) ∈ final.objs ∧ ∀ y, (y, i) ∈ final.objs → y = x) ∧
    (∀ i c, cells.get? i = some c → c.isObject = true → c.m4 ≠ 0 → c.m4 < 256 →
      objDelta W c.m4 ≤ i →
      (∀ y, (y, i) ∉ final.objs) ∧
      ∃ ci cn, final.cells.get? i = some ci ∧
        final.cells.get? (i - objDelta W c.m4) = some cn ∧
        ci.isObject = true ∧ ci.m2 = cn.m2) := by
  have hlt : ∀ i (c : ObjCell), cells.get? i = some c → i < cells.length := by
    intro i c hc
    by_contra hni
    rw [List.get?_eq_none.mpr (by omega)] at hc
    cases hc
  have decomp : ∀ i (c : ObjCell), cells.get? i = some c →
      ∃ s1 s2 : ObjConvState,
        objStep W cap tc s1 i = .ok s2 ∧
        objRun W cap tc s2 (List.range' (i + 1) (cells.length - i - 1)) = .ok final ∧
        s1.cells.get? i = some c ∧
        s1.cells.length = cells.length ∧
        s1.nextIndex = s1.nextIndex ∧
        (∀ p : Nat × Nat, p ∈ s1.objs → p.2 < i) := by
    intro i c hc
    have hi : i < cells.length := hlt i c hc
    have hrun2 := hrun
    unfold convertObjectTiles at hrun2
    rw [range_split cells.length i hi] at hrun2
    obtain ⟨s1, h1, hrest⟩ := objRun_append W cap tc _ _ _ _ hrun2
    obtain ⟨s2, hstep, h2⟩ := objRun_cons W cap tc _ _ _ _ hrest
    obtain ⟨hl1, hf1, new1, hobjs1, hloc1⟩ := objRun_spec W cap tc _ _ _ h1
    refine ⟨s1, s2, hstep, h2, ?_, hl1, rfl, ?_⟩
    · rw [hf1 i ?_]
      · exact hc
      · intro t ht
        have := List.mem_range'_1.mp ht
        omega
    · intro p hp
      rw [hobjs1] at hp
      simp only [List.nil_append] at hp
      have := List.mem_range'_1.mp (hloc1 p hp)
      omega
  constructor
  · intro i c hc hobj hm4
    have hi : i < cells.length := hlt i c hc
    obtain ⟨s1, s2, hstep, h2, hc1, hl1, -, hloc1⟩ := decomp i c hc
    obtain ⟨hcells2, hnext2, hobjs2⟩ :=
      objStep_alloc W cap tc s1 s2 i c hc1 hobj hm4 (by omega) hstep
    obtain ⟨hl2, hf2, new2, hobjsf, hloc2⟩ := objRun_spec W cap tc _ _ _ h2
    have hfr : final.cells.get? i = s2.cells.get? i := by
      apply hf2
      intro t ht
      have := List.mem_range'_1.mp ht
      omega
    have hgot : s2.cells.get? i =
        some { isObject := true, m2 := s1.nextIndex, m4 := 0 } := by
      rw [hcells2]
      exact List.get?_set_eq_of_lt _ (by rw [hl1]; exact hi)
    refine ⟨s1.nextIndex, by rw [hfr, hgot], ?_, ?_⟩
    · rw [hobjsf, hobjs2]
      simp
    · intro y hy
      rw [hobjsf, hobjs2] at hy
      rcases List.mem_append.mp hy with hy1 | hy2
      · rcases List.mem_append.mp hy1 with hy3 | hy4
        · exact absurd (hloc1 _ hy3) (lt_irrefl i)
        · simpa using hy4
      · exact absurd (List.mem_range'_1.mp (hloc2 _ hy2)) (by omega)
  · intro i c hc hobj hm4 hm4lt hdle
    have hi : i < cells.length := hlt i c hc
    obtain ⟨s1, s2, hstep, h2, hc1, hl1, -, hloc1⟩ := decomp i c hc
    obtain ⟨nc, hnc, hncobj, hcells2, hnext2, hobjs2⟩ :=
      objStep_offset W cap tc s1 s2 i c hc1 hobj hm4 (by omega) hstep
    obtain ⟨hl2, hf2, new2, hobjsf, hloc2⟩ := objRun_spec W cap tc _ _ _ h2
    have hin : i < 2 ^ 32 := lt_of_lt_of_le hi hsz
    have hne : northernTile W i c.m4 = i - objDelta W c.m4 :=
      northernTile_eq W i c.m4 hin hdle
    have hdpos : 0 < objDelta W c.m4 := objDelta_pos W c.m4 hW hm4 hm4lt
    constructor
    · intro y hy
      rw [hobjsf, hobjs2] at hy
      rcases List.mem_append.mp hy with hy1 | hy2
      · exact absurd (hloc1 _ hy1) (lt_irrefl i)
      · exact absurd (List.mem_range'_1.mp (hloc2 _ hy2)) (by omega)
    · have hfri : final.cells.get? i = s2.cells.get? i := by
        apply hf2
        intro t ht
        have := List.mem_range'_1.mp ht
        omega
      have hgoti : s2.cells.get? i =
          some { isObject := true, m2 := nc.m2, m4 := 0 } := by
        rw [hcells2]
        exact List.get?_set_eq_of_lt _ (by rw [hl1]; exact hi)
      have hfrn : final.cells.get? (i - objDelta W c.m4) =
          s2.cells.get? (i - objDelta W c.m4) := by
        apply hf2
        intro t ht
        have := List.mem_range'_1.mp ht
        omega
      have hgotn : s2.cells.get? (i - objDelta W c.m4) = some nc := by
        rw [hcells2, List.get?_set_ne _ _ (by omega)]
        rw [← hne]
        exact hnc
      exact ⟨{ isObject := true, m2 := nc.m2, m4 := 0 }, nc,
        by rw [hfri, hgoti], by rw [hfrn, hgotn], rfl, rfl⟩

/-- Witness for C4 on the two-cell map: the root cell gets the one
allocated object, index 0, and the offset cell resolves to the same
index. -/
theorem convertObjectTiles_relocation_witness :
    (∀ i c, objWitnessCells.get? i = some c → c.isObject = true → c.m4 = 0 →
      ∃ x, objWitnessFinal.cells.get? i = some { isObject := true, m2 := x, m4 := 0 } ∧
        (x, i) ∈ objWitnessFinal.objs ∧ ∀ y, (y, i) ∈ objWitnessFinal.objs → y = x) ∧
    (∀ i c, objWitnessCells.get? i = some c → c.isObject = true → c.m4 ≠ 0 → c.m4 < 256 →
      objDelta 4 c.m4 ≤ i →
      (∀ y, (y, i) ∉ objWitnessFinal.objs) ∧
      ∃ ci cn, objWitnessFinal.cells.get? i = some ci ∧
        objWitnessFinal.cells.get? (i - objDelta 4 c.m4) = some cn ∧
        ci.isObject = true ∧ ci.m2 = cn.m2) :=
  convertObjectTiles_relocation 4 64000 1 objWitnessCells objWitnessFinal
    (by decide) (by decide) (by norm_num [objWitnessCells]) rfl
